import Mathlib

/-!
Verification development for the MediShield/MediSave information-buddy app
(`src/main.py`). The app routes a citizen query through a document-search
agent, a web-research agent and a response-composing agent, and streams the
lifecycle events of each agent to a chat log.

Direct embeddings (from the Python source) are marked as such; the routing,
keyword gate, composer and credential/abort behaviour are executed at runtime
by an LLM / third-party libraries following the prompt text in the source, so
those are modelled from the specification and marked
`Modelled from the spec:`.
-/

namespace MediShield

/-- A `{role, content}` chat entry, as stored in `st.session_state.messages`
(src/main.py). -/
structure Msg where
  role : String
  content : String
deriving DecidableEq, Repr

/-- The literal no-answer fallback string of the customer-service task prompt
(src/main.py lines 171 and 175). -/
def fallbackAnswer : String := "I\x27m sorry. I do not have the answer to this enquiry."

/-- The fixed header prepended to the crew output before display
(src/main.py line 193). -/
def resultHeader : String := "## Thanks for waiting. Here is the information you requested. \n\n "

/-- Embeds `result` of src/main.py line 193 (header f-string prepended to the crew output):
the user-visible message for a turn. -/
def displayResult (final : String) : String := resultHeader ++ final

/-- Role string of the document-search agent (src/main.py line 65). -/
def infoRole : String := "Medishield Information Provider"

/-- Role string of the web-research agent (src/main.py line 80). -/
def webRole : String := "Medisave Researcher"

/-- Role string of the response-composing agent (src/main.py line 94). -/
def composerRole : String := "Customer Service Officer"

/-- The keyword vocabulary of Step 1 of the information-provider task prompt
(src/main.py lines 143-145). -/
def keywords : List String :=
  ["Medishield", "benefit", "coverage", "premium", "payment", "policy",
   "subsidies", "deductible", "claim", "co-insurance", "exclusions",
   "insurance", "healthcare", "protection", "hospital", "ward",
   "outpatient", "surgery", "treatment", "pro-ration", "withdrawal", "limit"]

/-- The `CustomHandler` callback object (src/main.py lines 31-36): it stores
only the agent name it was constructed with. -/
structure CustomHandler where
  agent_name : String
deriving DecidableEq, Repr

/-- Embeds `CustomHandler.on_chain_start` (src/main.py lines 38-41): appends the
chain input to the message log under the fixed role `"assistant"`. -/
def on_chain_start (_h : CustomHandler) (log : List Msg) (input : String) : List Msg :=
  log ++ [⟨"assistant", input⟩]

/-- Embeds `CustomHandler.on_agent_action` (src/main.py lines 43-46): appends the
action input to the message log under the fixed role `"assistant"`. -/
def on_agent_action (_h : CustomHandler) (log : List Msg) (input : String) : List Msg :=
  log ++ [⟨"assistant", input⟩]

/-- Embeds `CustomHandler.on_chain_end` (src/main.py lines 48-51): appends the chain
output to the message log under the own `agent_name` role of the handler. -/
def on_chain_end (h : CustomHandler) (log : List Msg) (output : String) : List Msg :=
  log ++ [⟨h.agent_name, output⟩]

/-- The character sequence of a string, lowercased character by character
(the case-folding step of the keyword gate). -/
def lowerChars (s : String) : List Char := s.data.map Char.toLower

/-- Modelled from the spec: §4.1 KeywordGate. The gate itself is Step 1 of the
prompt (src/main.py lines 143-146) and is executed by the LLM, not by Python
code; the spec fixes its semantics as case-insensitive substring/token match:
true iff the character sequence of some keyword occurs, case-insensitively, as a
contiguous part of the query. -/
def evaluate (query : String) (kws : List String) : Bool :=
  kws.any fun k => decide (lowerChars k <:+: lowerChars query)

/-- Lifecycle phase of an emitted event (spec §3: `{phase: Start|Action|End, ...}`). -/
inductive Phase where
  | start
  | action
  | stop
deriving DecidableEq, Repr, BEq

/-- Modelled from the spec: §3 Event. An event emitted by the lifecycle hooks
of an agent (the `CustomHandler` callbacks of src/main.py are the concrete sink). -/
structure Event where
  phase : Phase
  agentRole : String
  payload : String
deriving DecidableEq, Repr, BEq

/-- The text the End event of an agent carries: its Findings, or the "nothing
found" marker when Findings is empty (spec §4.2). -/
def findingsText : Option String → String
  | some t => t
  | none => "nothing found"

/-- Modelled from the spec: §4.2/§4.3 side-effect contract. The event block of
one agent invocation: one Start event echoing the query, zero or more Action
events, exactly one End event carrying the Findings marker. -/
def agentTrace (role q : String) (actions : List String) (f : Option String) : List Event :=
  ⟨.start, role, q⟩ :: (actions.map fun a => ⟨.action, role, a⟩) ++ [⟨.stop, role, findingsText f⟩]

/-- Boolean check that an event list is a single well-formed agent lifecycle:
nonempty, begins with a Start, ends with an End, only Action events between,
and every event carries the same agent role (no foreign interleaving). -/
def lifecycleOK (es : List Event) : Bool :=
  match es with
  | [] => false
  | s :: rest =>
      (s.phase == Phase.start) &&
      (match rest.getLast? with
       | none => false
       | some e => e.phase == Phase.stop) &&
      rest.dropLast.all (fun a => a.phase == Phase.action) &&
      es.all (fun e => e.agentRole == s.agentRole)

/-- Modelled from the spec: the two search agents as oracles. Each maps a
query to its Findings (`some text` or `none`) together with the payloads of
the Action events it emits while its tool runs (spec §4.2/§4.3). -/
structure AgentOracle where
  infoSearch : String → Option String × List String
  webSearch : String → Option String × List String

/-- The outcome of the routing stage of one turn: the aggregated Findings
handed to the composer, which agents were invoked, and the emitted events. -/
structure TurnResult where
  findings : Option String
  infoInvoked : Bool
  webInvoked : Bool
  events : List Event
deriving Repr

/-- Modelled from the spec: §4.5 Orchestrator state machine
(`INIT → GATE_CHECK → {INFO_SEARCH, SKIP_INFO} → {WEB_SEARCH, SKIP_WEB} →
AGGREGATE`). In src/main.py the routing is performed by the hierarchical-crew
manager LLM following the task prompts (lines 140-190); the spec fixes it as
this deterministic machine: gate true → InformationAgent; on `some` result
short-circuit past WEB_SEARCH; on `none` (or gate false) → ResearchAgent. -/
def orchestrate (o : AgentOracle) (q : String) : TurnResult :=
  if evaluate q keywords then
    let r := o.infoSearch q
    match r.1 with
    | some x => ⟨some x, true, false, agentTrace infoRole q r.2 (some x)⟩
    | none =>
        let w := o.webSearch q
        ⟨w.1, true, true,
          agentTrace infoRole q r.2 none ++ agentTrace webRole q w.2 w.1⟩
  else
    let w := o.webSearch q
    ⟨w.1, false, true, agentTrace webRole q w.2 w.1⟩

/-- The fixed greeting of the composer template (src/main.py line 173,
"Fellow Citizen, thank you for your enquiry."). -/
def composerGreeting : String := "Fellow Citizen, thank you for your enquiry."

/-- Modelled from the spec: the closing health tip of the composer template
(src/main.py line 176 asks for "a healthcare tip at the end"; its text is not
fixed by the source, so the model fixes one template constant). -/
def healthTip : String := "Health tip: schedule your regular health screening and stay active."

/-- Modelled from the spec: §4.4 ResponseComposer. In src/main.py the
composition is performed by the customer-service agent LLM following the task
prompt (lines 166-180). Empty Findings → the literal fallback string; non-empty
Findings `some text` → greeting, the findings themselves, closing health tip,
nothing else. -/
def compose (findings : Option String) : String :=
  match findings with
  | none => fallbackAnswer
  | some text => composerGreeting ++ "\n\n" ++ text ++ "\n\n" ++ healthTip

/-- The full turn event trace: the events of the search agents followed by the
own lifecycle block of the composer (spec §4.4: the composer emits
Start/Action/End identically to the other two agents). -/
def turnEvents (o : AgentOracle) (q : String) (composerActs : List String) : List Event :=
  (orchestrate o q).events ++
    agentTrace composerRole q composerActs (some (compose (orchestrate o q).findings))

/-- The user-visible message of a turn: the Answer of the composer run through the
display step of src/main.py line 193. -/
def userVisible (o : AgentOracle) (q : String) : String :=
  displayResult (compose (orchestrate o q).findings)

/-- Who performs an append to `st.session_state.messages`: the orchestrating
script itself (src/main.py lines 136 and 194), or a `CustomHandler` callback
owned by an agent (src/main.py lines 40, 45, 50). -/
inductive Appender where
  | orchestrator
  | handler (agent_name : String)
deriving DecidableEq, Repr

/-- When within a turn an append happens: before the crew is kicked off,
while the crew (the agents) is running, or after the turn is complete. -/
inductive TurnPhase where
  | beforeCrew
  | duringCrew
  | afterDone
deriving DecidableEq, Repr

/-- One append to the conversation log, tagged with its author and phase. -/
structure LogAppend where
  who : Appender
  phase : TurnPhase
  entry : Msg
deriving DecidableEq, Repr

/-- The message a `CustomHandler` event append writes (src/main.py lines
38-51): Start and Action events under the fixed role `"assistant"`, End
events under the agent name of the handler. -/
def handlerMsg (agentName : String) (e : Event) : Msg :=
  match e.phase with
  | .start => ⟨"assistant", e.payload⟩
  | .action => ⟨"assistant", e.payload⟩
  | .stop => ⟨agentName, e.payload⟩

/-- The tagged appends one turn performs on the conversation log
(src/main.py lines 135-195): the user prompt before the crew runs (line 136),
one handler append per emitted agent event while the crew runs (lines 40, 45,
50), and the displayed final answer after the crew returns (line 194). -/
def turnAppends (prompt : String) (events : List Event) (finalAnswer : String) : List LogAppend :=
  ⟨.orchestrator, .beforeCrew, ⟨"user", prompt⟩⟩ ::
    (events.map fun e => ⟨.handler e.agentRole, .duringCrew, handlerMsg e.agentRole e⟩) ++
    [⟨.orchestrator, .afterDone, ⟨"assistant", displayResult finalAnswer⟩⟩]

/-- The conversation log after one turn: the previous log with the appends of the turn at the end (every mutation of `st.session_state.messages` in
src/main.py is an `append`). -/
def runTurn (log : List Msg) (prompt : String) (events : List Event) (finalAnswer : String) : List Msg :=
  log ++ (turnAppends prompt events finalAnswer).map LogAppend.entry

/-- Outcome of one run of the Streamlit script (src/main.py top to bottom). -/
inductive AppOutcome where
  | fatalStartup
  | stoppedAtPassword
  | idle
  | answered (visible : String)
deriving DecidableEq, Repr

/-- Modelled from the spec: §6 Secrets/config provider. src/main.py lines
19-26: with a loaded `.env` the key is read from the environment and handed to
`OpenAI(api_key=...)`, whose constructor is a third-party call that raises
when no key is available; without `.env`, `st.secrets` lookup of the key
raises a lookup error when the key is absent. Either way an absent credential
is a fatal error raised before any further line runs. -/
def loadCredential (dotenvLoaded : Bool) (env secrets : Option String) : Option String :=
  if dotenvLoaded then
    match env with
    | some k => some k
    | none => none
  else
    match secrets with
    | some k => some k
    | none => none

/-- The Streamlit script of src/main.py as a function of its external inputs:
credential sources (lines 19-26), the password-gate result (lines 121-122,
`check_password` lives outside src/), the submitted prompt if any (line 135),
and the agent oracles. A missing credential aborts first; a failed password
check stops the script before the chat input; only then is a prompt routed
through the crew and displayed. -/
def runApp (dotenvLoaded : Bool) (env secrets : Option String) (passwordOk : Bool)
    (prompt : Option String) (o : AgentOracle) : AppOutcome :=
  match loadCredential dotenvLoaded env secrets with
  | none => .fatalStartup
  | some _ =>
      if passwordOk then
        match prompt with
        | none => .idle
        | some q => .answered (userVisible o q)
      else .stoppedAtPassword

/-- A concrete oracle on which both search agents find nothing. -/
def oracleNone : AgentOracle :=
  ⟨fun _ => (none, []), fun _ => (none, [])⟩

/-- A concrete oracle on which the document-search agent finds something. -/
def oracleInfo : AgentOracle :=
  ⟨fun _ => (some "MediShield Life covers large hospital bills.", ["pdf lookup"]),
   fun _ => (none, [])⟩

/-- C1: on non-empty Findings `some text` the composed Answer is exactly the
fixed greeting, the findings, and the closing health tip, and every character
of the Answer is traceable to `text` or to the fixed template; on the empty
marker the Answer is the literal no-answer fallback string. -/
theorem c1_composer_contract :
    (∀ t : String,
        compose (some t) = composerGreeting ++ "\n\n" ++ t ++ "\n\n" ++ healthTip ∧
        ∀ c ∈ (compose (some t)).data,
          c ∈ t.data ∨ c ∈ composerGreeting.data ∨ c ∈ healthTip.data ∨ c = '\n') ∧
    compose none = fallbackAnswer := by
  refine ⟨fun t => ⟨rfl, fun c hc => ?_⟩, rfl⟩
  simp only [compose, String.data_append] at hc
  rcases List.mem_append.1 hc with h | h
  · rcases List.mem_append.1 h with h | h
    · rcases List.mem_append.1 h with h | h
      · rcases List.mem_append.1 h with h | h
        · exact Or.inr (Or.inl h)
        · right; right; right
          simpa using h
      · exact Or.inl h
    · right; right; right
      simpa using h
  · exact Or.inr (Or.inr (Or.inl h))

/-- Witness for C1: the character F of the Answer for concrete findings is
traceable to the findings text or the fixed template. -/
theorem c1_composer_contract_witness :
    'F' ∈ "MediShield pays.".data ∨ 'F' ∈ composerGreeting.data ∨
    'F' ∈ healthTip.data ∨ 'F' = '\n' :=
  (c1_composer_contract.1 "MediShield pays.").2 'F' (by decide)

/-- C2: whenever the keyword gate admits the query and the document-search
agent returns non-empty Findings `some x`, the web-research agent is not
invoked in that turn and `x` is the aggregated Findings (short-circuit). -/
theorem c2_short_circuit (o : AgentOracle) (q x : String)
    (hg : evaluate q keywords = true) (hi : (o.infoSearch q).1 = some x) :
    (orchestrate o q).webInvoked = false ∧ (orchestrate o q).findings = some x := by
  simp [orchestrate, hg, hi]

/-- Witness for C2 at a concrete oracle and the concrete query "claim". -/
theorem c2_short_circuit_witness :
    (orchestrate oracleInfo "claim").webInvoked = false ∧
    (orchestrate oracleInfo "claim").findings =
      some "MediShield Life covers large hospital bills." :=
  c2_short_circuit oracleInfo "claim" "MediShield Life covers large hospital bills."
    (by decide) rfl

/-- C3 counterexample: on the query "hello" with both search agents returning
`none`, the user-visible message of the turn is not byte-for-byte the fallback
string — the display step of src/main.py line 193 prepends a header. -/
theorem c3_counterexample :
    (oracleNone.infoSearch "hello").1 = none ∧
    (oracleNone.webSearch "hello").1 = none ∧
    userVisible oracleNone "hello" ≠ fallbackAnswer :=
  ⟨rfl, rfl, by decide⟩

/-- C3 amended: when both search agents return `none` (or are skipped), the
Answer of the composer equals the fallback string byte-for-byte, and the
user-visible message is that fallback with the fixed display header prepended. -/
theorem c3_fallback_answer (o : AgentOracle) (q : String)
    (hi : (o.infoSearch q).1 = none) (hw : (o.webSearch q).1 = none) :
    compose (orchestrate o q).findings = fallbackAnswer ∧
    userVisible o q = resultHeader ++ fallbackAnswer := by
  have hf : (orchestrate o q).findings = none := by
    cases hg : evaluate q keywords
    · simp [orchestrate, hg, hw]
    · simp [orchestrate, hg, hi, hw]
  rw [userVisible, hf]
  exact ⟨rfl, rfl⟩

/-- Witness for C3 amended at a concrete no-findings oracle and query. -/
theorem c3_fallback_answer_witness :
    compose (orchestrate oracleNone "hello").findings = fallbackAnswer ∧
    userVisible oracleNone "hello" = resultHeader ++ fallbackAnswer :=
  c3_fallback_answer oracleNone "hello" rfl rfl

/-- C4: the keyword gate is a total Lean function (hence pure, deterministic
and side-effect-free) returning true iff at least one keyword occurs
case-insensitively in the query, and on the empty query with the configured
vocabulary it returns false rather than failing. -/
theorem c4_keyword_gate :
    (∀ (q : String) (kws : List String),
        evaluate q kws = true ↔ ∃ k ∈ kws, lowerChars k <:+: lowerChars q) ∧
    evaluate "" keywords = false := by
  refine ⟨fun q kws => ?_, by decide⟩
  simp [evaluate]

/-- Witness for C4: the gate admits the concrete query "claim". -/
theorem c4_keyword_gate_witness : evaluate "claim" keywords = true :=
  (c4_keyword_gate.1 "claim" keywords).2 ⟨"claim", by decide, by decide⟩

/-- C8: the final message shown to the user is always the crew output
prefixed with the fixed header of src/main.py line 193, and therefore never
equals the composed Answer alone. -/
theorem c8_display_header (o : AgentOracle) (q : String) :
    userVisible o q = resultHeader ++ compose (orchestrate o q).findings ∧
    userVisible o q ≠ compose (orchestrate o q).findings := by
  refine ⟨rfl, fun h => ?_⟩
  have hl := congrArg String.length h
  rw [userVisible, displayResult, String.length_append] at hl
  have hr : resultHeader.length = 0 := by omega
  exact absurd hr (by decide)

/-- Witness for C8 at a concrete oracle and query. -/
theorem c8_display_header_witness :
    userVisible oracleNone "hello" =
      resultHeader ++ compose (orchestrate oracleNone "hello").findings ∧
    userVisible oracleNone "hello" ≠
      compose (orchestrate oracleNone "hello").findings :=
  c8_display_header oracleNone "hello"

/-- C9: the Start and Action callbacks append log entries under the fixed
role "assistant" independently of the agent name stored in the handler, while
the End callback appends under the agent name of the handler itself. -/
theorem c9_handler_roles :
    (∀ (h h2 : CustomHandler) (log : List Msg) (i : String),
        on_chain_start h log i = on_chain_start h2 log i ∧
        on_agent_action h log i = on_agent_action h2 log i) ∧
    (∀ (h : CustomHandler) (log : List Msg) (i : String),
        (on_chain_start h log i).getLast? = some ⟨"assistant", i⟩ ∧
        (on_agent_action h log i).getLast? = some ⟨"assistant", i⟩) ∧
    (∀ (h : CustomHandler) (log : List Msg) (out : String),
        (on_chain_end h log out).getLast? = some ⟨h.agent_name, out⟩) := by
  refine ⟨fun h h2 log i => ⟨rfl, rfl⟩, fun h log i => ⟨?_, ?_⟩, fun h log out => ?_⟩
  · rw [on_chain_start, List.getLast?_concat]
  · rw [on_agent_action, List.getLast?_concat]
  · rw [on_chain_end, List.getLast?_concat]

/-- C10: whenever the password check fails, the script run never reaches the
chat input or the crew: the outcome is a startup abort or the password stop,
and it does not depend on the submitted prompt or on the agents. -/
theorem c10_password_gate (d : Bool) (env secrets : Option String)
    (pr : Option String) (o o2 : AgentOracle) :
    (runApp d env secrets false pr o = AppOutcome.fatalStartup ∨
     runApp d env secrets false pr o = AppOutcome.stoppedAtPassword) ∧
    runApp d env secrets false pr o = runApp d env secrets false none o2 := by
  cases hc : loadCredential d env secrets <;> simp [runApp, hc]

/-- Every block an agent invocation emits is a well-formed lifecycle. -/
theorem lifecycleOK_agentTrace (role q : String) (acts : List String) (f : Option String) :
    lifecycleOK (agentTrace role q acts f) = true := by
  simp [lifecycleOK, agentTrace, List.getLast?_concat, List.dropLast_concat]
  exact ⟨⟨rfl, rfl⟩, fun a _ => rfl⟩

/-- C5: the event trace of any turn splits into contiguous blocks, one per
invoked agent, and each block is exactly one Start, zero or more Action
events, then exactly one End, all carrying that same agent role — so no
events of a different agent interleave within an invocation. -/
theorem c5_event_lifecycle (o : AgentOracle) (q : String) (composerActs : List String) :
    ∃ blocks : List (List Event),
      turnEvents o q composerActs = blocks.flatten ∧
      ∀ b ∈ blocks, lifecycleOK b = true := by
  cases hg : evaluate q keywords
  · refine ⟨[agentTrace webRole q (o.webSearch q).2 (o.webSearch q).1,
       agentTrace composerRole q composerActs
         (some (compose (orchestrate o q).findings))], ?_, ?_⟩
    · simp [turnEvents, orchestrate, hg]
    · intro b hb
      simp only [List.mem_cons, List.not_mem_nil, or_false] at hb
      rcases hb with rfl | rfl
      · exact lifecycleOK_agentTrace ..
      · exact lifecycleOK_agentTrace ..
  · cases hi : (o.infoSearch q).1 with
    | some x =>
        refine ⟨[agentTrace infoRole q (o.infoSearch q).2 (some x),
           agentTrace composerRole q composerActs
             (some (compose (orchestrate o q).findings))], ?_, ?_⟩
        · simp [turnEvents, orchestrate, hg, hi]
        · intro b hb
          simp only [List.mem_cons, List.not_mem_nil, or_false] at hb
          rcases hb with rfl | rfl
          · exact lifecycleOK_agentTrace ..
          · exact lifecycleOK_agentTrace ..
    | none =>
        refine ⟨[agentTrace infoRole q (o.infoSearch q).2 none,
           agentTrace webRole q (o.webSearch q).2 (o.webSearch q).1,
           agentTrace composerRole q composerActs
             (some (compose (orchestrate o q).findings))], ?_, ?_⟩
        · simp [turnEvents, orchestrate, hg, hi]
        · intro b hb
          simp only [List.mem_cons, List.not_mem_nil, or_false] at hb
          rcases hb with rfl | rfl | rfl
          · exact lifecycleOK_agentTrace ..
          · exact lifecycleOK_agentTrace ..
          · exact lifecycleOK_agentTrace ..

/-- Witness for C5 at a concrete oracle, query and composer action list. -/
theorem c5_event_lifecycle_witness :
    ∃ blocks : List (List Event),
      turnEvents oracleNone "hello" [] = blocks.flatten ∧
      ∀ b ∈ blocks, lifecycleOK b = true :=
  c5_event_lifecycle oracleNone "hello" []

/-- C6 counterexample: on a turn whose crew emits one agent event, the claim
that every log append is by the orchestrator after DONE is false — the
`CustomHandler` callbacks append to the very same log mid-turn. -/
theorem c6_counterexample :
    ¬ (∀ a ∈ turnAppends "hi" [⟨Phase.start, infoRole, "hi"⟩] "x",
        a.who = Appender.orchestrator ∧ a.phase = TurnPhase.afterDone) := by
  decide

/-- C6 amended: the conversation log is append-only (a turn only extends the
existing log), but it is written mid-turn: each agent event is appended by
that agent handler while the crew runs, and the only append after the turn
completes is the displayed final answer appended by the orchestrating script. -/
theorem c6_append_only (log : List Msg) (p : String) (es : List Event) (f : String) :
    (∃ t, runTurn log p es f = log ++ t) ∧
    (∀ e ∈ es,
      (⟨Appender.handler e.agentRole, TurnPhase.duringCrew,
        handlerMsg e.agentRole e⟩ : LogAppend) ∈ turnAppends p es f) ∧
    (∀ a ∈ turnAppends p es f, a.phase = TurnPhase.afterDone →
      a = ⟨Appender.orchestrator, TurnPhase.afterDone,
            ⟨"assistant", displayResult f⟩⟩) := by
  refine ⟨⟨_, rfl⟩, fun e he => ?_, fun a ha hph => ?_⟩
  · rw [turnAppends]
    exact List.mem_cons_of_mem _ (List.mem_append_left _ (List.mem_map_of_mem _ he))
  · rw [turnAppends] at ha
    rcases List.mem_cons.1 ha with rfl | ha
    · simp at hph
    rcases List.mem_append.1 ha with ha | ha
    · rcases List.mem_map.1 ha with ⟨e, _, rfl⟩
      simp at hph
    · rw [List.mem_singleton.1 ha]

/-- Witness for C6 amended on a concrete log, prompt, event and answer. -/
theorem c6_append_only_witness :
    (∃ t, runTurn [] "hi" [⟨Phase.start, infoRole, "hi"⟩] "x" = [] ++ t) ∧
    (⟨Appender.handler infoRole, TurnPhase.duringCrew,
        handlerMsg infoRole ⟨Phase.start, infoRole, "hi"⟩⟩ : LogAppend) ∈
      turnAppends "hi" [⟨Phase.start, infoRole, "hi"⟩] "x" := by
  have h := c6_append_only [] "hi" [⟨Phase.start, infoRole, "hi"⟩] "x"
  exact ⟨h.1, h.2.1 ⟨Phase.start, infoRole, "hi"⟩ (List.mem_singleton.2 rfl)⟩

/-- C7: with the credential absent from both the environment and the secrets
store, every script run aborts at startup before any query is accepted; and
any run that answers a query had a credential supplied. -/
theorem c7_missing_credential :
    (∀ (d pw : Bool) (pr : Option String) (o : AgentOracle),
        runApp d none none pw pr o = AppOutcome.fatalStartup) ∧
    (∀ (d : Bool) (env secrets : Option String) (pw : Bool) (pr : Option String)
        (o : AgentOracle) (v : String),
        runApp d env secrets pw pr o = AppOutcome.answered v →
        loadCredential d env secrets ≠ none) := by
  constructor
  · intro d pw pr o
    cases d <;> simp [runApp, loadCredential]
  · intro d env secrets pw pr o v h hc
    simp [runApp, hc] at h

/-- Witness for C7 at concrete startup configurations. -/
theorem c7_missing_credential_witness :
    runApp true none none true (some "hi") oracleNone = AppOutcome.fatalStartup ∧
    loadCredential true (some "key") none ≠ none :=
  ⟨c7_missing_credential.1 true true (some "hi") oracleNone,
   c7_missing_credential.2 true (some "key") none true (some "hi") oracleNone
     (userVisible oracleNone "hi") rfl⟩

end MediShield
